import Mathlib

/-!
Verification of the boompow server's authentication middleware and
authorization predicates (Go package `middleware`, file embedded from
`src/unnamed/part_000`) and of the channel construction in the server
entry point (`runServer`, `src/unnamed/part_001`).

The Go code is shallowly embedded: external collaborators (token
parsing, the redis store, the user repository, the configured service
token list, the uuid parser) are fields of an `Env` record of pure
functions, and the middleware is a pure function from the
`Authorization` header (plus caller IP, used only for logging) to an
outcome: either an HTTP rejection or a pass-through to the next
handler with an optional attached `UserContextValue`.
-/

namespace Boompow

/-- User type enum, from `models` (`models.PROVIDER`, `models.REQUESTER`). -/
inductive UserType where
  | PROVIDER
  | REQUESTER
deriving DecidableEq, Repr

/-- Fields of `models.User` that the middleware and the authorization
predicates read; the remaining fields of the Go struct are never
consulted by this code. -/
structure User where
  emailVerified : Bool
  canRequestWork : Bool
  type : UserType
deriving DecidableEq, Repr

/-- Go struct `UserContextValue`: `User *models.User` (nillable pointer,
hence `Option`) and `AuthType string`. -/
structure UserContextValue where
  user : Option User
  authType : String
deriving DecidableEq, Repr

/-- The request context as the predicates see it: either no value is
stored under `userCtxKey`, or a value of a different type is stored
(the checked type assertion in `forContext` yields nil), or a
`*UserContextValue` is attached. -/
inductive Ctx where
  | empty
  | wrongType
  | attached (v : UserContextValue)
deriving DecidableEq, Repr

/-- Go `forContext`: `raw, _ := ctx.Value(userCtxKey).(*UserContextValue)`;
the checked assertion returns nil both when nothing is stored and when
the stored value has another type. -/
def forContext : Ctx → Option UserContextValue
  | Ctx.attached v => some v
  | _ => none

/-- Go `AuthorizedUser`: nil if no context value, nil user, or
`AuthType != "jwt"`; otherwise the context value. -/
def AuthorizedUser (ctx : Ctx) : Option UserContextValue :=
  match forContext ctx with
  | none => none
  | some cv =>
    match cv.user with
    | none => none
    | some _ => if cv.authType ≠ "jwt" then none else some cv

/-- Go `AuthorizedProvider`: additionally requires `EmailVerified` and
`Type == models.PROVIDER`. -/
def AuthorizedProvider (ctx : Ctx) : Option UserContextValue :=
  match forContext ctx with
  | none => none
  | some cv =>
    match cv.user with
    | none => none
    | some u =>
      if cv.authType ≠ "jwt" ∨ u.emailVerified = false ∨ u.type ≠ UserType.PROVIDER then
        none
      else some cv

/-- Go `AuthorizedRequester`: requires `AuthType == "jwt"`,
`EmailVerified`, `CanRequestWork` and `Type == models.REQUESTER`. -/
def AuthorizedRequester (ctx : Ctx) : Option UserContextValue :=
  match forContext ctx with
  | none => none
  | some cv =>
    match cv.user with
    | none => none
    | some u =>
      if cv.authType ≠ "jwt" ∨ u.emailVerified = false ∨ u.canRequestWork = false ∨
          u.type ≠ UserType.REQUESTER then
        none
      else some cv

/-- Go `AuthorizedServiceToken`: same identity conditions as
`AuthorizedRequester` but requires `AuthType == "token"`. -/
def AuthorizedServiceToken (ctx : Ctx) : Option UserContextValue :=
  match forContext ctx with
  | none => none
  | some cv =>
    match cv.user with
    | none => none
    | some u =>
      if cv.authType ≠ "token" ∨ u.emailVerified = false ∨ u.canRequestWork = false ∨
          u.type ≠ UserType.REQUESTER then
        none
      else some cv

/-- Go `AuthorizedChangePassword`: nil if no context value, nil user, or
`AuthType != "token"`; no identity-flag conditions. -/
def AuthorizedChangePassword (ctx : Ctx) : Option UserContextValue :=
  match forContext ctx with
  | none => none
  | some cv =>
    match cv.user with
    | none => none
    | some _ => if cv.authType ≠ "token" then none else some cv

/-- One GraphQL-style error entry, as produced by gqlgen's
`graphql.ErrorResponse`. -/
structure GraphqlError where
  message : String
deriving DecidableEq, Repr

/-- The GraphQL-style error envelope the middleware writes on rejection,
modelled structurally (the list of error messages). -/
structure GraphqlResponse where
  errors : List GraphqlError
deriving DecidableEq, Repr

/-- Go `formatGraphqlError(ctx, msg)`: marshals
`graphql.ErrorResponse(ctx, "Invalid token")`. Note that the `msg`
argument is ignored by the Go function; the message placed in the
envelope is always the literal `"Invalid token"` from line 34 of the
source, regardless of the string passed at the call site. -/
def formatGraphqlError (_msg : String) : GraphqlResponse :=
  { errors := [{ message := "Invalid token" }] }

/-- Parsed UUID value (`uuid.UUID`); its internal representation is
irrelevant to the middleware, which only threads it to the repository. -/
structure UUID where
  val : Nat
deriving DecidableEq, Repr

/-- External collaborators of `AuthMiddleware`, as pure functions:
`auth.ParseToken` (token to email, `none` on error),
`database.GetRedisDB().GetResetPasswordToken` (email to stored token),
`utils.GetServiceTokens()` (the operator-configured token list),
`database.GetRedisDB().GetServiceTokenUser` (header to user id string),
`uuid.Parse`, and `userRepo.GetUser` by email and by id (`none` when
the user does not exist / the call errors). -/
structure Env where
  parseToken : String → Option String
  getResetPasswordToken : String → Option String
  serviceTokens : List String
  getServiceTokenUser : String → Option String
  uuidParse : String → Option UUID
  getUserByEmail : String → Option User
  getUserByID : UUID → Option User

/-- One `klog.Errorf` security log line of the service-token branch:
a tag (`"INVALID TOKEN ATTEMPT 1"` or `"INVALID TOKEN ATTEMPT"`), the
offending header and the caller IP from `net.GetIPAddress(r)`. -/
structure LogEvent where
  tag : String
  header : String
  ip : String
deriving DecidableEq, Repr

/-- Outcome of the middleware for one request: `forbidden status body`
models `http.Error(w, body, status)` followed by `return` (the next
handler is never called, so no context value is attached), and
`next attached` models `next.ServeHTTP` with the optional
`UserContextValue` stored in the request context. -/
inductive MiddlewareResult where
  | forbidden (status : Nat) (body : GraphqlResponse)
  | next (attached : Option UserContextValue)
deriving DecidableEq, Repr

/-- Middleware outcome together with the security log lines emitted
while handling the request. -/
structure MwOutcome where
  result : MiddlewareResult
  logs : List LogEvent
deriving DecidableEq, Repr

/-- Go `strings.HasPrefix` on the underlying character sequence (all
scheme tags here are ASCII, so Go's byte view and the character view
agree). -/
def tagMatchesChars : List Char → List Char → Bool
  | [], _ => true
  | _ :: _, [] => false
  | p :: ps, c :: cs => p == c && tagMatchesChars ps cs

/-- Go `strings.HasPrefix(s, p)`. -/
def goHasTag (s p : String) : Bool :=
  tagMatchesChars p.data s.data

/-- Go slice `s[n:]` (drop the first `n` characters; the dropped tags
are ASCII so bytes and characters agree). -/
def goDrop (s : String) (n : Nat) : String :=
  String.mk (s.data.drop n)

/-- Go `http.StatusForbidden`. -/
def StatusForbidden : Nat := 403

/-- Go `AuthMiddleware` body (lines 43-126 of the source), as a pure
function of the collaborators, the `Authorization` header and the
caller IP: empty header passes through; `resetpassword:`-tagged headers
are parsed and checked against the one-time-token store; `service:`-
tagged headers are matched whole against the configured token list and
resolved through the service-token store and `uuid.Parse`; anything
else is treated as a bearer JWT. A user-repository miss passes the
request through unauthenticated; every other failure rejects with 403
and the fixed GraphQL error envelope. -/
def AuthMiddleware (env : Env) (header ip : String) : MwOutcome :=
  if header = "" then
    { result := MiddlewareResult.next none, logs := [] }
  else if goHasTag header "resetpassword:" then
    match env.parseToken (goDrop header (String.length "resetpassword:")) with
    | none =>
      { result := MiddlewareResult.forbidden StatusForbidden (formatGraphqlError "Invalid Token")
        logs := [] }
    | some email =>
      match env.getResetPasswordToken email with
      | none =>
        { result := MiddlewareResult.forbidden StatusForbidden (formatGraphqlError "Invalid Token")
          logs := [] }
      | some _ =>
        match env.getUserByEmail email with
        | none => { result := MiddlewareResult.next none, logs := [] }
        | some user =>
          { result := MiddlewareResult.next (some { user := some user, authType := "token" })
            logs := [] }
  else if goHasTag header "service:" then
    if ¬ env.serviceTokens.contains header then
      { result := MiddlewareResult.forbidden StatusForbidden (formatGraphqlError "Invalid Token")
        logs := [{ tag := "INVALID TOKEN ATTEMPT 1", header := header, ip := ip }] }
    else
      match env.getServiceTokenUser header with
      | none =>
        { result := MiddlewareResult.forbidden StatusForbidden (formatGraphqlError "Invalid Token")
          logs := [{ tag := "INVALID TOKEN ATTEMPT", header := header, ip := ip }] }
      | some userID =>
        match env.uuidParse userID with
        | none =>
          { result := MiddlewareResult.forbidden StatusForbidden (formatGraphqlError "Invalid Token")
            logs := [] }
        | some userUUID =>
          match env.getUserByID userUUID with
          | none => { result := MiddlewareResult.next none, logs := [] }
          | some user =>
            { result := MiddlewareResult.next (some { user := some user, authType := "token" })
              logs := [] }
  else
    match env.parseToken header with
    | none =>
      { result := MiddlewareResult.forbidden StatusForbidden (formatGraphqlError "Invalid Token")
        logs := [] }
    | some email =>
      match env.getUserByEmail email with
      | none => { result := MiddlewareResult.next none, logs := [] }
      | some user =>
        { result := MiddlewareResult.next (some { user := some user, authType := "jwt" })
          logs := [] }

/-- Element type of the stats channel (`repository.WorkMessage`); its
fields live outside the embedded files and are irrelevant to the
channel-construction claim. -/
structure WorkMessage where
  mk ::
deriving DecidableEq, Repr

/-- Element type of the block-awarded channel
(`serializableModels.ClientMessage`); fields likewise irrelevant here. -/
structure ClientMessage where
  mk ::
deriving DecidableEq, Repr

/-- A Go channel with its fixed capacity and current buffered
contents. `make(chan T, c)` yields capacity `c` with an empty buffer;
`make(chan T)` is the `c = 0` (rendezvous) case. -/
structure GoChan (α : Type) where
  capacity : Nat
  buffer : List α
deriving DecidableEq, Repr

/-- Go `make(chan α, cap)`. -/
def GoChan.make (α : Type) (cap : Nat) : GoChan α :=
  { capacity := cap, buffer := [] }

/-- A send on a channel with no receiver currently waiting: it
completes (buffering the value) exactly when the buffer is below
capacity, and otherwise blocks the sender (`none`). On a capacity-0
channel every such send blocks, which is rendezvous semantics. -/
def GoChan.sendNoReceiver {α : Type} (c : GoChan α) (x : α) : Option (GoChan α) :=
  if c.buffer.length < c.capacity then some { c with buffer := c.buffer ++ [x] } else none

/-- Sequence of sends with no receiver; `none` as soon as one blocks. -/
def GoChan.sendAllNoReceiver {α : Type} (c : GoChan α) : List α → Option (GoChan α)
  | [] => some c
  | x :: xs =>
    match c.sendNoReceiver x with
    | none => none
    | some c₂ => c₂.sendAllNoReceiver xs

/-- Go line 106 of the entry point:
`statsChan := make(chan repository.WorkMessage, 100)`. -/
def runServerStatsChan : GoChan WorkMessage :=
  GoChan.make WorkMessage 100

/-- Go line 108 of the entry point:
`blockAwardedChan := make(chan serializableModels.ClientMessage)`. -/
def runServerBlockAwardedChan : GoChan ClientMessage :=
  GoChan.make ClientMessage 0

/-- Concrete collaborator record in which every external lookup fails
and no service token is configured. -/
def envDenyAll : Env :=
  { parseToken := fun _ => none
    getResetPasswordToken := fun _ => none
    serviceTokens := []
    getServiceTokenUser := fun _ => none
    uuidParse := fun _ => none
    getUserByEmail := fun _ => none
    getUserByID := fun _ => none }

/-- A header carrying the `resetpassword:` tag is nonempty. -/
theorem goHasTag_resetpassword_ne_empty (s : String)
    (h : goHasTag s "resetpassword:" = true) : ¬ s = "" := by
  intro he
  subst he
  exact absurd h (by decide)

/-- A header carrying the `service:` tag is nonempty. -/
theorem goHasTag_service_ne_empty (s : String)
    (h : goHasTag s "service:" = true) : ¬ s = "" := by
  intro he
  subst he
  exact absurd h (by decide)

/-- A header carrying the `service:` tag does not carry the
`resetpassword:` tag (their first characters differ), so the middleware
dispatches it to the service branch. -/
theorem goHasTag_service_not_resetpassword (s : String)
    (h : goHasTag s "service:" = true) :
    goHasTag s "resetpassword:" = false := by
  obtain ⟨l⟩ := s
  match l with
  | [] => exact absurd h (by decide)
  | c :: cs =>
    have hserv : String.data "service:" = ['s', 'e', 'r', 'v', 'i', 'c', 'e', ':'] := rfl
    have hrp : String.data "resetpassword:" =
        ['r', 'e', 's', 'e', 't', 'p', 'a', 's', 's', 'w', 'o', 'r', 'd', ':'] := rfl
    unfold goHasTag at h ⊢
    rw [hserv] at h
    rw [hrp]
    simp only [tagMatchesChars, Bool.and_eq_true, beq_iff_eq] at h ⊢
    rcases h with ⟨hc, -⟩
    subst hc
    simp

/-- C1: a `UserContextValue` whose `AuthType` is the token class
(`"token"`, as produced by the service-token and reset-password
branches of the middleware) is rejected by every JWT-requiring
predicate; and any context value the middleware attaches for a
`resetpassword:`- or `service:`-tagged header has that token class. -/
theorem tokenAuth_denied_by_jwt_predicates :
    (∀ cv : UserContextValue, cv.authType = "token" →
      AuthorizedUser (Ctx.attached cv) = none ∧
      AuthorizedProvider (Ctx.attached cv) = none ∧
      AuthorizedRequester (Ctx.attached cv) = none) ∧
    (∀ (env : Env) (header ip : String) (cv : UserContextValue),
      (goHasTag header "resetpassword:" = true ∨ goHasTag header "service:" = true) →
      (AuthMiddleware env header ip).result = MiddlewareResult.next (some cv) →
      cv.authType = "token") := by
  constructor
  · intro cv h
    refine ⟨?_, ?_, ?_⟩ <;>
      cases hu : cv.user <;>
        simp [AuthorizedUser, AuthorizedProvider, AuthorizedRequester, forContext, hu, h]
  · intro env header ip cv htag hres
    rcases htag with hr | hs
    · have hne : ¬ header = "" := goHasTag_resetpassword_ne_empty header hr
      unfold AuthMiddleware at hres
      simp only [if_neg hne, if_pos hr] at hres
      repeat' split at hres
      all_goals simp at hres
      all_goals rw [← hres]
    · have hne : ¬ header = "" := goHasTag_service_ne_empty header hs
      have hnr : goHasTag header "resetpassword:" = false :=
        goHasTag_service_not_resetpassword header hs
      unfold AuthMiddleware at hres
      simp only [if_neg hne, hnr, Bool.false_eq_true, if_false, hs, eq_self_iff_true,
        if_true] at hres
      repeat' split at hres
      all_goals simp at hres
      all_goals rw [← hres]

/-- Concrete context value: a fully-privileged requester identity under
token-class trust. -/
def cvTokenRequester : UserContextValue :=
  { user := some { emailVerified := true, canRequestWork := true, type := UserType.REQUESTER }
    authType := "token" }

/-- C1 witness: the fully-privileged requester identity under token
trust is still denied by all three JWT predicates. -/
theorem tokenAuth_denied_by_jwt_predicates_witness :
    cvTokenRequester.authType = "token" ∧
    (AuthorizedUser (Ctx.attached cvTokenRequester) = none ∧
      AuthorizedProvider (Ctx.attached cvTokenRequester) = none ∧
      AuthorizedRequester (Ctx.attached cvTokenRequester) = none) :=
  ⟨rfl, tokenAuth_denied_by_jwt_predicates.1 cvTokenRequester rfl⟩

/-- C10: when no `*UserContextValue` is stored in the request context
(nothing attached, or a value of another type), the checked type
assertion in `forContext` yields nil and all five authorization
predicates return denied, with no panic (the predicates are total). -/
theorem missing_context_all_denied (ctx : Ctx) (h : forContext ctx = none) :
    AuthorizedUser ctx = none ∧ AuthorizedProvider ctx = none ∧
    AuthorizedRequester ctx = none ∧ AuthorizedServiceToken ctx = none ∧
    AuthorizedChangePassword ctx = none := by
  refine ⟨?_, ?_, ?_, ?_, ?_⟩ <;>
    simp [AuthorizedUser, AuthorizedProvider, AuthorizedRequester, AuthorizedServiceToken,
      AuthorizedChangePassword, h]

/-- C10 witness: a context holding a value of a different type under the
user key is denied by all five predicates. -/
theorem missing_context_all_denied_witness :
    forContext Ctx.wrongType = none ∧
    (AuthorizedUser Ctx.wrongType = none ∧ AuthorizedProvider Ctx.wrongType = none ∧
      AuthorizedRequester Ctx.wrongType = none ∧ AuthorizedServiceToken Ctx.wrongType = none ∧
      AuthorizedChangePassword Ctx.wrongType = none) :=
  ⟨rfl, missing_context_all_denied Ctx.wrongType rfl⟩

/-- C3: `AuthorizedServiceToken` denies every PROVIDER-typed identity
whatever the trust class, denies every JWT-trust context value, and
accepts exactly the token-trust context values whose identity satisfies
`EmailVerified`, `CanRequestWork` and `Type = REQUESTER`. -/
theorem authorizedServiceToken_spec :
    (∀ (ev crw : Bool) (a : String),
      AuthorizedServiceToken (Ctx.attached
        { user := some { emailVerified := ev, canRequestWork := crw, type := UserType.PROVIDER }
          authType := a }) = none) ∧
    (∀ u : User,
      AuthorizedServiceToken (Ctx.attached { user := some u, authType := "jwt" }) = none) ∧
    (∀ (u : User) (a : String),
      AuthorizedServiceToken (Ctx.attached { user := some u, authType := a }) =
        if a = "token" ∧ u.emailVerified = true ∧ u.canRequestWork = true ∧
            u.type = UserType.REQUESTER then
          some { user := some u, authType := a }
        else none) := by
  refine ⟨?_, ?_, ?_⟩
  · intro ev crw a
    simp [AuthorizedServiceToken, forContext]
  · intro u
    simp [AuthorizedServiceToken, forContext]
  · intro u a
    by_cases h1 : a = "token" <;>
      cases h2 : u.emailVerified <;> cases h3 : u.canRequestWork <;>
        by_cases h4 : u.type = UserType.REQUESTER <;>
          simp [AuthorizedServiceToken, forContext, h1, h2, h3, h4]

/-- C4: `AuthorizedChangePassword` accepts every token-trust context
value with a present identity, whatever the identity's flags, and
denies every JWT-trust context value. -/
theorem authorizedChangePassword_spec :
    (∀ u : User,
      AuthorizedChangePassword (Ctx.attached { user := some u, authType := "token" }) =
        some { user := some u, authType := "token" }) ∧
    (∀ u : User,
      AuthorizedChangePassword (Ctx.attached { user := some u, authType := "jwt" }) = none) := by
  constructor <;> intro u <;> simp [AuthorizedChangePassword, forContext]

/-- C8: an absent (empty) `Authorization` header makes the middleware
call the next handler with no context value attached, no error and no
log, before any scheme-specific logic runs. -/
theorem emptyHeader_passthrough (env : Env) (ip : String) :
    AuthMiddleware env "" ip = { result := MiddlewareResult.next none, logs := [] } := by
  simp [AuthMiddleware]

/-- C5: a `service:`-tagged header must match the configured token list
in full (tag included); a miss rejects with 403 and the fixed error
body and logs a security event carrying the caller IP; on a hit, a
missing bound user id or one that `uuid.Parse` refuses also rejects
with 403 and the fixed body. -/
theorem serviceToken_branch_spec (env : Env) (header ip : String)
    (hs : goHasTag header "service:" = true) :
    (env.serviceTokens.contains header = false →
      AuthMiddleware env header ip =
        { result := MiddlewareResult.forbidden 403 { errors := [{ message := "Invalid token" }] }
          logs := [{ tag := "INVALID TOKEN ATTEMPT 1", header := header, ip := ip }] }) ∧
    (env.serviceTokens.contains header = true →
      env.getServiceTokenUser header = none →
      AuthMiddleware env header ip =
        { result := MiddlewareResult.forbidden 403 { errors := [{ message := "Invalid token" }] }
          logs := [{ tag := "INVALID TOKEN ATTEMPT", header := header, ip := ip }] }) ∧
    (∀ uid : String,
      env.serviceTokens.contains header = true →
      env.getServiceTokenUser header = some uid →
      env.uuidParse uid = none →
      AuthMiddleware env header ip =
        { result := MiddlewareResult.forbidden 403 { errors := [{ message := "Invalid token" }] }
          logs := [] }) := by
  have hne : ¬ header = "" := goHasTag_service_ne_empty header hs
  have hnr : goHasTag header "resetpassword:" = false :=
    goHasTag_service_not_resetpassword header hs
  refine ⟨?_, ?_, ?_⟩
  · intro hc
    have hm : header ∉ env.serviceTokens := by simpa using hc
    simp [AuthMiddleware, hne, hnr, hs, hm, formatGraphqlError, StatusForbidden]
  · intro hc hst
    have hm : header ∈ env.serviceTokens := by simpa using hc
    simp [AuthMiddleware, hne, hnr, hs, hm, hst, formatGraphqlError, StatusForbidden]
  · intro uid hc hst hup
    have hm : header ∈ env.serviceTokens := by simpa using hc
    simp [AuthMiddleware, hne, hnr, hs, hm, hst, hup, formatGraphqlError, StatusForbidden]

/-- C5 witness: with no configured service tokens, a `service:`-tagged
header is rejected with 403 and the security log line carries the
caller IP. -/
theorem serviceToken_branch_spec_witness :
    AuthMiddleware envDenyAll "service:tok" "192.0.2.1" =
      { result := MiddlewareResult.forbidden 403 { errors := [{ message := "Invalid token" }] }
        logs := [{ tag := "INVALID TOKEN ATTEMPT 1", header := "service:tok",
                   ip := "192.0.2.1" }] } :=
  (serviceToken_branch_spec envDenyAll "service:tok" "192.0.2.1" (by decide)).1 (by decide)

/-- C6: a `resetpassword:`-tagged header has its tag stripped and the
rest decoded to an email; a decode failure rejects with 403; a decode
success whose email is not in the one-time-token store rejects with
403; when both steps succeed and the identity resolves, a token-class
context value is attached. -/
theorem resetPassword_branch_spec (env : Env) (header ip : String)
    (hr : goHasTag header "resetpassword:" = true) :
    (env.parseToken (goDrop header (String.length "resetpassword:")) = none →
      AuthMiddleware env header ip =
        { result := MiddlewareResult.forbidden 403 { errors := [{ message := "Invalid token" }] }
          logs := [] }) ∧
    (∀ email : String,
      env.parseToken (goDrop header (String.length "resetpassword:")) = some email →
      env.getResetPasswordToken email = none →
      AuthMiddleware env header ip =
        { result := MiddlewareResult.forbidden 403 { errors := [{ message := "Invalid token" }] }
          logs := [] }) ∧
    (∀ (email stored : String) (user : User),
      env.parseToken (goDrop header (String.length "resetpassword:")) = some email →
      env.getResetPasswordToken email = some stored →
      env.getUserByEmail email = some user →
      AuthMiddleware env header ip =
        { result := MiddlewareResult.next (some { user := some user, authType := "token" })
          logs := [] }) := by
  have hne : ¬ header = "" := goHasTag_resetpassword_ne_empty header hr
  refine ⟨?_, ?_, ?_⟩
  · intro hp
    simp [AuthMiddleware, hne, hr, hp, formatGraphqlError, StatusForbidden]
  · intro email hp ht
    simp [AuthMiddleware, hne, hr, hp, ht, formatGraphqlError, StatusForbidden]
  · intro email stored user hp ht hu
    simp [AuthMiddleware, hne, hr, hp, ht, hu]

/-- C6 witness: a `resetpassword:`-tagged header whose token does not
decode is rejected with 403 and the fixed body. -/
theorem resetPassword_branch_spec_witness :
    AuthMiddleware envDenyAll "resetpassword:xyz" "198.51.100.9" =
      { result := MiddlewareResult.forbidden 403 { errors := [{ message := "Invalid token" }] }
        logs := [] } :=
  (resetPassword_branch_spec envDenyAll "resetpassword:xyz" "198.51.100.9" (by decide)).1
    (by decide)

/-- C7: for each of the three schemes, a credential that passes all its
own checks but whose resolved identity is missing from the user store
makes the middleware call the next handler with nothing attached — it
is not a 403. -/
theorem unknownIdentity_passthrough (env : Env) (header ip : String) :
    (∀ email stored : String,
      goHasTag header "resetpassword:" = true →
      env.parseToken (goDrop header (String.length "resetpassword:")) = some email →
      env.getResetPasswordToken email = some stored →
      env.getUserByEmail email = none →
      AuthMiddleware env header ip = { result := MiddlewareResult.next none, logs := [] }) ∧
    (∀ (uid : String) (u : UUID),
      goHasTag header "service:" = true →
      env.serviceTokens.contains header = true →
      env.getServiceTokenUser header = some uid →
      env.uuidParse uid = some u →
      env.getUserByID u = none →
      AuthMiddleware env header ip = { result := MiddlewareResult.next none, logs := [] }) ∧
    (∀ email : String,
      ¬ header = "" →
      goHasTag header "resetpassword:" = false →
      goHasTag header "service:" = false →
      env.parseToken header = some email →
      env.getUserByEmail email = none →
      AuthMiddleware env header ip = { result := MiddlewareResult.next none, logs := [] }) := by
  refine ⟨?_, ?_, ?_⟩
  · intro email stored hr hp ht hu
    have hne : ¬ header = "" := goHasTag_resetpassword_ne_empty header hr
    simp [AuthMiddleware, hne, hr, hp, ht, hu]
  · intro uid u hs hc hst hup hid
    have hne : ¬ header = "" := goHasTag_service_ne_empty header hs
    have hnr : goHasTag header "resetpassword:" = false :=
      goHasTag_service_not_resetpassword header hs
    have hm : header ∈ env.serviceTokens := by simpa using hc
    simp [AuthMiddleware, hne, hnr, hs, hm, hst, hup, hid]
  · intro email hne hnr hns hp hu
    simp [AuthMiddleware, hne, hnr, hns, hp, hu]

/-- Concrete collaborator record in which every token resolves but no
user exists in the user store. -/
def envUnknownUser : Env :=
  { parseToken := fun _ => some "a@b.c"
    getResetPasswordToken := fun _ => some "stored"
    serviceTokens := ["service:good"]
    getServiceTokenUser := fun _ => some "some-id"
    uuidParse := fun _ => some { val := 7 }
    getUserByEmail := fun _ => none
    getUserByID := fun _ => none }

/-- C7 witness: a decodable reset-password token bound to a stored
one-time token whose email has no user passes the request through
unauthenticated. -/
theorem unknownIdentity_passthrough_witness :
    AuthMiddleware envUnknownUser "resetpassword:xyz" "203.0.113.5" =
      { result := MiddlewareResult.next none, logs := [] } :=
  (unknownIdentity_passthrough envUnknownUser "resetpassword:xyz" "203.0.113.5").1
    "a@b.c" "stored" (by decide) (by decide) (by decide) (by decide)

/-- C2 (amended): for each credential scheme, every failing internal
check (reset-password token fails to decode, one-time-token lookup
fails, service token not in the configured list, bound id missing or
unparseable, bearer token fails to decode) rejects the request with
HTTP 403, and every rejection the middleware ever produces carries
that same status 403 and the same fixed GraphQL error envelope, whose
single error message is the literal `"Invalid token"`; a rejection
never calls the next handler, so no context value is attached. -/
theorem reject_always_403_fixed_body (env : Env) (header ip : String) :
    ((goHasTag header "resetpassword:" = true →
        env.parseToken (goDrop header (String.length "resetpassword:")) = none →
        (AuthMiddleware env header ip).result =
          MiddlewareResult.forbidden 403 { errors := [{ message := "Invalid token" }] }) ∧
      (∀ email : String, goHasTag header "resetpassword:" = true →
        env.parseToken (goDrop header (String.length "resetpassword:")) = some email →
        env.getResetPasswordToken email = none →
        (AuthMiddleware env header ip).result =
          MiddlewareResult.forbidden 403 { errors := [{ message := "Invalid token" }] }) ∧
      (goHasTag header "service:" = true →
        env.serviceTokens.contains header = false →
        (AuthMiddleware env header ip).result =
          MiddlewareResult.forbidden 403 { errors := [{ message := "Invalid token" }] }) ∧
      (goHasTag header "service:" = true →
        env.serviceTokens.contains header = true →
        env.getServiceTokenUser header = none →
        (AuthMiddleware env header ip).result =
          MiddlewareResult.forbidden 403 { errors := [{ message := "Invalid token" }] }) ∧
      (∀ uid : String, goHasTag header "service:" = true →
        env.serviceTokens.contains header = true →
        env.getServiceTokenUser header = some uid →
        env.uuidParse uid = none →
        (AuthMiddleware env header ip).result =
          MiddlewareResult.forbidden 403 { errors := [{ message := "Invalid token" }] }) ∧
      (¬ header = "" →
        goHasTag header "resetpassword:" = false →
        goHasTag header "service:" = false →
        env.parseToken header = none →
        (AuthMiddleware env header ip).result =
          MiddlewareResult.forbidden 403 { errors := [{ message := "Invalid token" }] })) ∧
    (∀ (s : Nat) (b : GraphqlResponse),
      (AuthMiddleware env header ip).result = MiddlewareResult.forbidden s b →
      s = 403 ∧ b = { errors := [{ message := "Invalid token" }] }) := by
  constructor
  · refine ⟨?_, ?_, ?_, ?_, ?_, ?_⟩
    · intro hr hp
      have hne : ¬ header = "" := goHasTag_resetpassword_ne_empty header hr
      simp [AuthMiddleware, hne, hr, hp, formatGraphqlError, StatusForbidden]
    · intro email hr hp ht
      have hne : ¬ header = "" := goHasTag_resetpassword_ne_empty header hr
      simp [AuthMiddleware, hne, hr, hp, ht, formatGraphqlError, StatusForbidden]
    · intro hs hc
      have hne : ¬ header = "" := goHasTag_service_ne_empty header hs
      have hnr : goHasTag header "resetpassword:" = false :=
        goHasTag_service_not_resetpassword header hs
      have hm : header ∉ env.serviceTokens := by simpa using hc
      simp [AuthMiddleware, hne, hnr, hs, hm, formatGraphqlError, StatusForbidden]
    · intro hs hc hst
      have hne : ¬ header = "" := goHasTag_service_ne_empty header hs
      have hnr : goHasTag header "resetpassword:" = false :=
        goHasTag_service_not_resetpassword header hs
      have hm : header ∈ env.serviceTokens := by simpa using hc
      simp [AuthMiddleware, hne, hnr, hs, hm, hst, formatGraphqlError, StatusForbidden]
    · intro uid hs hc hst hup
      have hne : ¬ header = "" := goHasTag_service_ne_empty header hs
      have hnr : goHasTag header "resetpassword:" = false :=
        goHasTag_service_not_resetpassword header hs
      have hm : header ∈ env.serviceTokens := by simpa using hc
      simp [AuthMiddleware, hne, hnr, hs, hm, hst, hup, formatGraphqlError, StatusForbidden]
    · intro hne hnr hns hp
      simp [AuthMiddleware, hne, hnr, hns, hp, formatGraphqlError, StatusForbidden]
  · intro s b h
    unfold AuthMiddleware at h
    repeat' split at h
    all_goals simp_all [StatusForbidden, formatGraphqlError]

/-- C2 witness: on a malformed bearer token under the all-deny
collaborators the middleware rejects, the rejection is 403 with the
fixed envelope, and the uniform-body half applies to it. -/
theorem reject_always_403_fixed_body_witness :
    ((403 : Nat) = 403 ∧
      ({ errors := [{ message := "Invalid token" }] } : GraphqlResponse) =
        { errors := [{ message := "Invalid token" }] }) :=
  (reject_always_403_fixed_body envDenyAll "badtoken" "198.51.100.77").2
    403 { errors := [{ message := "Invalid token" }] } (by decide)

/-- C2 counterexample: on a malformed bearer token the middleware does
reject with 403, but the error message in the body is the literal
`"Invalid token"` (from `formatGraphqlError`, which ignores the
`"Invalid Token"` string passed at every call site), not the
`"Invalid Token"` body the claim states. -/
theorem invalidToken_body_counterexample :
    (AuthMiddleware envDenyAll "badtoken" "203.0.113.7").result =
      MiddlewareResult.forbidden 403 { errors := [{ message := "Invalid token" }] } ∧
    ¬ (AuthMiddleware envDenyAll "badtoken" "203.0.113.7").result =
      MiddlewareResult.forbidden 403 { errors := [{ message := "Invalid Token" }] } := by
  constructor
  · decide
  · decide

/-- C9: `runServer` builds the work-event (stats) queue as a bounded
channel of capacity exactly 100 — 100 sends with no consumer all
complete and the 101st blocks — and builds the block-awarded (reward)
queue as an unbuffered rendezvous channel (capacity 0, on which any
send without a waiting receiver blocks). -/
theorem runServer_channel_capacities :
    runServerStatsChan.capacity = 100 ∧
    (GoChan.sendAllNoReceiver runServerStatsChan
        (List.replicate 100 WorkMessage.mk)).map
      (fun c => c.sendNoReceiver WorkMessage.mk) = some none ∧
    runServerBlockAwardedChan.capacity = 0 ∧
    runServerBlockAwardedChan.sendNoReceiver ClientMessage.mk = none := by
  refine ⟨rfl, by decide, rfl, rfl⟩

end Boompow
